import Mathlib

/-!
# Verification of the data-pipeline Transformer and View layer

A shallow embedding of the repository's Transformation and View subsystems
(`src/pipeline/transform.py`, `src/pipeline/create_views.py`,
`src/pipeline/enhanced_views.py`, `src/pipeline/check_views.py`,
`src/pipeline/extract.py`, `src/pipeline/load.py`), together with theorems
settling the frozen claims about them.

Modelling conventions:
* Timestamps are absolute instants modelled as `Int` seconds since the Unix
  epoch (UTC); `DATE(ts)` is floor division by 86400.
* Numeric cells (`credits`, numeric timestamp cells) are modelled at integer
  precision (`Int`).  The repository stores doubles, but every operation the
  claims exercise (small sums, signed sums, sign comparisons) is exact on
  doubles for integral values as well.
* Missing cells (pandas `NaN` / SQL `NULL`) are `Option.none`.
* pandas `sort_values` is modelled by a stable insertion sort with missing
  keys ordered last (pandas default `na_position='last'`).
* SQL `GROUP BY` is modelled by listing group keys in first-occurrence
  order; `ORDER BY` clauses on view output are omitted (no claim concerns
  the output ordering of a view).
-/

namespace DataPipeline

/-- A raw cell as read from the CSV: missing, numeric, or textual. -/
inductive RawVal where
  | null : RawVal
  | num : Int → RawVal
  | str : String → RawVal
deriving DecidableEq, Repr

/-- Is the raw cell a string?  (Python `isinstance(date_value, str)`.) -/
def RawVal.isStr : RawVal → Bool
  | .str _ => true
  | _ => false

/-! ## Calendar arithmetic

Civil-calendar conversion to days since 1970-01-01 (proleptic Gregorian),
the standard era-based algorithm; all divisions below receive non-negative
arguments, so the rounding convention is immaterial. -/

/-- Is `y` a (proleptic Gregorian) leap year? -/
def isLeap (y : Int) : Bool :=
  y % 4 = 0 && (y % 100 ≠ 0 || y % 400 = 0)

/-- Number of days in month `m` of year `y` (for `m` in 1..12). -/
def daysInMonth (y m : Int) : Int :=
  if m = 2 then (if isLeap y then 29 else 28)
  else if m = 4 || m = 6 || m = 9 || m = 11 then 30
  else 31

/-- Days from 1970-01-01 to the civil date `y-m-d`. -/
def daysFromCivil (y m d : Int) : Int :=
  let y' := if m ≤ 2 then y - 1 else y
  let era := (if 0 ≤ y' then y' else y' - 399) / 400
  let yoe := y' - era * 400
  let mp := (m + 9) % 12
  let doy := (153 * mp + 2) / 5 + d - 1
  let doe := yoe * 365 + yoe / 4 - yoe / 100 + doy
  era * 146097 + doe - 719468

/-- Seconds since the Unix epoch of the instant `y-m-d hh:mi:ss` (UTC). -/
def epochOf (y m d hh mi ss : Int) : Int :=
  daysFromCivil y m d * 86400 + hh * 3600 + mi * 60 + ss

/-- `START_DATE = pd.to_datetime("1990-01-01")` in `transform.py`. -/
def START_DATE : Int := epochOf 1990 1 1 0 0 0

/-- `END_DATE = pd.to_datetime("2050-01-01")` in `transform.py`. -/
def END_DATE : Int := epochOf 2050 1 1 0 0 0

/-- The sentinel timestamp `1990-01-01 00:00:00` used for unparseable or
missing timestamps (`transform.py`, line 133). -/
def SENTINEL : Int := epochOf 1990 1 1 0 0 0

/-- Day number (days since 1970-01-01) of an instant: SQL `DATE(timestamp)`. -/
def dayOf (ts : Int) : Int := Int.fdiv ts 86400

/-! ## Character-level string helpers -/

/-- Whitespace characters recognised by `str.strip()` (the ones occurring in
CSV cells). -/
def isWs (c : Char) : Bool :=
  c = ' ' || c = '\t' || c = '\n' || c = '\r'

/-- Strip leading and trailing whitespace from a character list. -/
def stripChars (l : List Char) : List Char :=
  ((l.dropWhile isWs).reverse.dropWhile isWs).reverse

/-- Python `str.strip()`. -/
def pyStrip (s : String) : String := ⟨stripChars s.data⟩

/-- Python `str.lower()` (ASCII as exercised by the data). -/
def pyLower (s : String) : String := ⟨s.data.map Char.toLower⟩

/-- The transformer's string normalisation: strip surrounding whitespace,
then lower-case (`transform.py`, lines 140-143). -/
def normalizeStr (s : String) : String := pyLower (pyStrip s)

/-- Split a character list on a separator character (like `str.split(sep)`
with all parts kept). -/
def splitListOn (sep : Char) : List Char → List (List Char)
  | [] => [[]]
  | c :: cs =>
    let rest := splitListOn sep cs
    if c = sep then [] :: rest
    else
      match rest with
      | [] => [[c]]
      | p :: ps => (c :: p) :: ps

/-- Value of a non-empty all-digit character list, `none` otherwise. -/
def natOfDigits : List Char → Option Nat
  | [] => none
  | l =>
    if l.all Char.isDigit then
      some (l.foldl (fun a c => a * 10 + (c.toNat - 48)) 0)
    else none

/-- A 1-or-2-digit numeric field with an inclusive value range
(`strptime`-style components such as `%m`, `%d`, `%H`, `%M`, `%S`). -/
def field2 (lo hi : Nat) (l : List Char) : Option Nat :=
  if l.length = 1 || l.length = 2 then
    match natOfDigits l with
    | some n => if lo ≤ n ∧ n ≤ hi then some n else none
    | none => none
  else none

/-- A 4-digit year field (`strptime` `%Y`); Python `datetime` requires the
year to be at least 1. -/
def fieldYear (l : List Char) : Option Nat :=
  if l.length = 4 then
    match natOfDigits l with
    | some n => if 1 ≤ n then some n else none
    | none => none
  else none

/-- A day-of-month field checked against the calendar (Python `datetime`
rejects impossible dates such as Feb 30). -/
def fieldDay (y m : Nat) (l : List Char) : Option Nat :=
  match field2 1 31 l with
  | some d => if (d : Int) ≤ daysInMonth (y : Int) (m : Int) then some d else none
  | none => none

/-! ## The three string timestamp formats of `transform.py`

`STRING_FORMATS` (lines 72-76): ISO `%Y-%m-%d %H:%M:%S`, European
`%d-%m-%Y`, US `%m/%d/%Y %H:%M %p`.  Each parse must consume the whole
string.  In the US format the hour directive is `%H` (24-hour), so the
trailing AM/PM token is parsed but does not alter the hour, exactly as in
CPython `strptime`. -/

/-- Parse `YYYY-MM-DD HH:MM:SS`. -/
def parseISO (s : String) : Option Int :=
  match splitListOn ' ' s.data with
  | [d, t] =>
    match splitListOn '-' d, splitListOn ':' t with
    | [ys, ms, ds], [hs, mis, ss] => do
      let y ← fieldYear ys
      let m ← field2 1 12 ms
      let dd ← fieldDay y m ds
      let h ← field2 0 23 hs
      let mi ← field2 0 59 mis
      let sec ← field2 0 59 ss
      pure (epochOf y m dd h mi sec)
    | _, _ => none
  | _ => none

/-- Parse `DD-MM-YYYY`. -/
def parseEuro (s : String) : Option Int :=
  match splitListOn '-' s.data with
  | [ds, ms, ys] => do
    let y ← fieldYear ys
    let m ← field2 1 12 ms
    let dd ← fieldDay y m ds
    pure (epochOf y m dd 0 0 0)
  | _ => none

/-- Is the character list an AM/PM token (`strptime` `%p`, matched
case-insensitively)? -/
def isAmPm (l : List Char) : Bool :=
  let low := l.map Char.toLower
  low = ['a', 'm'] || low = ['p', 'm']

/-- Parse `MM/DD/YYYY HH:MM AM` (or `PM`); hour is `%H`, so the meridiem
token is checked but ignored. -/
def parseUS (s : String) : Option Int :=
  match splitListOn ' ' s.data with
  | [d, t, ap] =>
    if isAmPm ap then
      match splitListOn '/' d, splitListOn ':' t with
      | [ms, ds, ys], [hs, mis] => do
        let y ← fieldYear ys
        let m ← field2 1 12 ms
        let dd ← fieldDay y m ds
        let h ← field2 0 23 hs
        let mi ← field2 0 59 mis
        pure (epochOf y m dd h mi 0)
      | _, _ => none
    else none
  | _ => none

/-! ## Numeric interpretation (`pd.to_numeric(..., errors="coerce")`) -/

/-- Integer value of a decimal string with optional sign and surrounding
whitespace, `none` for non-numeric strings.  (Numeric cells are modelled at
integer precision; a fractional epoch value inside the accepted window does
not occur in the data.) -/
def strToInt (s : String) : Option Int :=
  match stripChars s.data with
  | '-' :: rest => (natOfDigits rest).map (fun n => -(n : Int))
  | '+' :: rest => (natOfDigits rest).map (fun n => (n : Int))
  | rest => (natOfDigits rest).map (fun n => (n : Int))

/-- `pd.to_numeric(date_value, errors="coerce")` on a raw cell. -/
def toNumeric : RawVal → Option Int
  | .null => none
  | .num n => some n
  | .str s => strToInt s

/-- The numeric (epoch-seconds) interpretation accepted by the parser: the
value must lie in the window `[START_DATE, END_DATE]`
(`transform.py`, lines 93-100). -/
def acceptedNum (v : RawVal) : Option Int :=
  match toNumeric v with
  | some n => if START_DATE ≤ n && n ≤ END_DATE then some n else none
  | none => none

/-- The three string formats tried in their fixed order, first success wins
(`transform.py`, lines 103-108). -/
def tryFormats (s : String) : Option Int :=
  match parseISO s with
  | some t => some t
  | none =>
    match parseEuro s with
    | some t => some t
    | none => parseUS s

/-- `datetime_parser` of `transform.py` (lines 78-111): numeric epoch
interpretation first (accepted only inside the window), then — for string
values — the three formats in order, otherwise `NaT` (`none`).  Total: no
raw value raises. -/
def datetime_parse (v : RawVal) : Option Int :=
  match acceptedNum v with
  | some n => some n
  | none =>
    match v with
    | .str s => tryFormats s
    | _ => none

/-- The sentinel fill applied by `transform` after parsing
(`df["timestamp"].fillna(...)`, line 133). -/
def fillTimestamp (t : Option Int) : Int := t.getD SENTINEL

/-! ## The Transformer (`transform.py`, `transform`) -/

/-- A raw input record (one CSV row): any field may be missing. -/
structure RawRecord where
  org_id : Option String
  user_id : Option String
  credit_type : Option String
  action : Option String
  credits : Option Int
  timestamp : RawVal
deriving DecidableEq, Repr

/-- A working row after the timestamp column has been parsed
(the DataFrame state from line 114 of `transform.py` onward). -/
structure PRow where
  org_id : Option String
  user_id : Option String
  credit_type : Option String
  action : Option String
  credits : Option Int
  timestamp : Option Int
deriving DecidableEq, Repr

/-- A canonical record as loaded into `user_actions`: `credit_type`,
`credits` and `timestamp` have been filled, strings normalised. -/
structure CanonRow where
  org_id : Option String
  user_id : Option String
  credit_type : String
  action : Option String
  credits : Int
  timestamp : Int
deriving DecidableEq, Repr

/-- Apply `datetime_parser` to the timestamp cell (line 114). -/
def parseRecord (r : RawRecord) : PRow :=
  ⟨r.org_id, r.user_id, r.credit_type, r.action, r.credits,
    datetime_parse r.timestamp⟩

/-- Strict lexicographic order on character lists by code point. -/
def listLt : List Char → List Char → Bool
  | [], [] => false
  | [], _ :: _ => true
  | _ :: _, [] => false
  | a :: as, b :: bs =>
    if a.toNat < b.toNat then true
    else if b.toNat < a.toNat then false
    else listLt as bs

/-- Non-strict string order (code-point lexicographic). -/
def strLe (a b : String) : Bool := !(listLt b.data a.data)

/-- Order on optional strings with missing values last
(pandas `na_position='last'`). -/
def optStrLe : Option String → Option String → Bool
  | none, none => true
  | none, some _ => false
  | some _, none => true
  | some a, some b => strLe a b

/-- Order on optional instants with `NaT` last. -/
def optIntLe : Option Int → Option Int → Bool
  | none, none => true
  | none, some _ => false
  | some _, none => true
  | some a, some b => a ≤ b

/-- The `(user_id, timestamp)` sort key of line 117. -/
def rowLeUserTs (a b : PRow) : Bool :=
  if a.user_id = b.user_id then optIntLe a.timestamp b.timestamp
  else optStrLe a.user_id b.user_id

/-- The final `(org_id, user_id)` sort key of line 155. -/
def rowLeOrgUser (a b : CanonRow) : Bool :=
  if a.org_id = b.org_id then optStrLe a.user_id b.user_id
  else optStrLe a.org_id b.org_id

/-- Insert into a sorted list, before the first element it is `le` to
(stable). -/
def insertLe (le : α → α → Bool) (x : α) : List α → List α
  | [] => [x]
  | y :: ys => if le x y then x :: y :: ys else y :: insertLe le x ys

/-- Stable sort (models pandas `sort_values`; ties keep input order). -/
def insSort (le : α → α → Bool) : List α → List α
  | [] => []
  | x :: xs => insertLe le x (insSort le xs)

/-- Keep rows with at least one of `org_id`, `user_id` present:
`df.dropna(subset=["org_id", "user_id"], how="all")` (line 122). -/
def dropnaAll (rows : List PRow) : List PRow :=
  rows.filter (fun r => r.org_id.isSome || r.user_id.isSome)

/-- `df.groupby("user_id")["org_id"].transform("first")` for group `u`:
the first non-missing `org_id` among the rows of user `u`, in frame order
(pandas `first` skips `NaN`; `NaN` group keys are excluded). -/
def firstOrg (rows : List PRow) (u : String) : Option String :=
  (rows.filterMap
    (fun r => if r.user_id = some u then r.org_id else none)).head?

/-- The single-organisation filter `df[df["org_id"] == first_orgs]`
(lines 129-130).  A row with a missing `user_id` gets a missing
`first_orgs` entry, and a missing value compares unequal to everything
(including itself), so only rows with both identifiers present and
`org_id` equal to the group's first non-missing `org_id` survive. -/
def keepRow (rows : List PRow) (r : PRow) : Bool :=
  match r.user_id, r.org_id with
  | some u, some o => firstOrg rows u = some o
  | _, _ => false

/-- Lines 133-152: fill the sentinel timestamp, normalise string columns
(strip then lower-case; normalisation happens after the single-org
filter), fill `credits` with `1.0` and `credit_type` with `"default"`.
A present `credit_type` is normalised before the fill. -/
def finalize (r : PRow) : CanonRow :=
  ⟨r.org_id.map normalizeStr,
   r.user_id.map normalizeStr,
   (r.credit_type.map normalizeStr).getD "default",
   r.action.map normalizeStr,
   r.credits.getD 1,
   fillTimestamp r.timestamp⟩

/-- The intermediate frame right after the single-organisation rule
(line 130): parse, sort by `(user_id, timestamp)`, drop rows missing both
identifiers, keep each user's first-organisation rows. -/
def singleOrgStage (raws : List RawRecord) : List PRow :=
  let sorted := insSort rowLeUserTs (raws.map parseRecord)
  let kept := dropnaAll sorted
  kept.filter (keepRow kept)

/-- `transform` of `transform.py` (lines 21-158). -/
def transform (raws : List RawRecord) : List CanonRow :=
  insSort rowLeOrgUser ((singleOrgStage raws).map finalize)

/-! ## Shared aggregation helpers -/

/-- The signed credit amount of the Org Balance / financial rollup views:
`CASE WHEN action = 'add' THEN credits WHEN action = 'deduct' THEN -credits
ELSE 0 END` (a missing action falls to the `ELSE` branch, as SQL `NULL`
comparisons do). -/
def signedCredit (r : CanonRow) : Int :=
  match r.action with
  | some a => if a = "add" then r.credits else if a = "deduct" then -r.credits else 0
  | none => 0

/-- `CASE WHEN action = 'add' THEN credits ELSE 0 END`. -/
def addCredit (r : CanonRow) : Int :=
  match r.action with
  | some a => if a = "add" then r.credits else 0
  | none => 0

/-- `CASE WHEN action = 'deduct' THEN credits ELSE 0 END`. -/
def deductCredit (r : CanonRow) : Int :=
  match r.action with
  | some a => if a = "deduct" then r.credits else 0
  | none => 0

/-- Sum of a rational-valued field over a group. -/
def sumBy (f : α → Int) (g : List α) : Int := (g.map f).foldr (· + ·) 0

/-- `MAX` over a non-empty group (the empty case cannot arise from a
`GROUP BY`; it is given a dummy value). -/
def listMax : List Int → Int
  | [] => 0
  | x :: xs => xs.foldl max x

/-- `MIN` over a non-empty group. -/
def listMin : List Int → Int
  | [] => 0
  | x :: xs => xs.foldl min x

/-! ## `create_views.py`: the Customer Success daily activity view -/

/-- The `WHERE` clause of `create_cs_view` (lines 102-107): identifiers and
action present, and `credit_type != 'default'`. -/
def csFilter (r : CanonRow) : Bool :=
  r.user_id.isSome && r.org_id.isSome && r.action.isSome &&
    r.credit_type ≠ "default"

/-- The `GROUP BY` key of `create_cs_view` (line 109). -/
structure CsKey where
  activity_date : Int
  org_id : Option String
  user_id : Option String
  action : Option String
  credit_type : String
deriving DecidableEq, Repr

/-- Group key of a row. -/
def csKey (r : CanonRow) : CsKey :=
  ⟨dayOf r.timestamp, r.org_id, r.user_id, r.action, r.credit_type⟩

/-- The groups of the daily activity view, keyed in first-occurrence order. -/
def csGroups (rows : List CanonRow) : List (CsKey × List CanonRow) :=
  let f := rows.filter csFilter
  ((f.map csKey).dedup).map (fun k => (k, f.filter (fun r => csKey r = k)))

/-- The usage-level classification of `create_cs_view` (lines 94-99). -/
def usageLevel (n : Nat) : String :=
  if n ≥ 10 then "High Usage"
  else if n ≥ 5 then "Medium Usage"
  else if n ≥ 1 then "Low Usage"
  else "No Usage"

/-- One output row of the daily activity view.  The `SUM(CASE ...)` of
lines 85-91 returns `credits` in every branch, so it is a plain sum. -/
structure CsRow where
  activity_date : Int
  org_id : Option String
  user_id : Option String
  action : Option String
  credit_type : String
  total_credits_used : Int
  action_count : Nat
  usage_level : String
deriving DecidableEq, Repr

/-- `create_cs_view` of `create_views.py` (lines 76-112); `ORDER BY`
omitted. -/
def create_cs_view (rows : List CanonRow) : List CsRow :=
  (csGroups rows).map (fun kg =>
    ⟨kg.1.activity_date, kg.1.org_id, kg.1.user_id, kg.1.action,
     kg.1.credit_type, sumBy (fun r => r.credits) kg.2, kg.2.length,
     usageLevel kg.2.length⟩)

/-! ## `create_views.py`: the Finance Org Balance view -/

/-- The groups of the Org Balance view: plain `GROUP BY org_id` over
**all** rows — the view has no `WHERE` clause, in particular no
`credit_type` filter. -/
def finGroups (rows : List CanonRow) : List (Option String × List CanonRow) :=
  ((rows.map (fun r => r.org_id)).dedup).map
    (fun o => (o, rows.filter (fun r => r.org_id = o)))

/-- `create_finance_view` of `create_views.py` (lines 186-202): per
organisation, the signed credit sum (`'add'` positive, `'deduct'`
negative, anything else 0). -/
def create_finance_view (rows : List CanonRow) : List (Option String × Int) :=
  (finGroups rows).map (fun og => (og.1, sumBy signedCredit og.2))

/-! ## Reference data and joins (`organizations`, `users`) -/

/-- A row of the `organizations` reference table (`org_id` is its primary
key). -/
structure OrgRef where
  org_id : String
  org_name : String
  industry : String
deriving DecidableEq, Repr

/-- A row of the `users` reference table (`user_id` is its primary key). -/
structure UserRef where
  user_id : String
  user_name : String
  email : String
  org_id : String
  role : String
deriving DecidableEq, Repr

/-- Primary-key lookup in `organizations` (an `INNER JOIN` on a key column
matches at most one row). -/
def lookupOrg (orgs : List OrgRef) (i : String) : Option OrgRef :=
  (orgs.filter (fun o => o.org_id = i)).head?

/-- Primary-key lookup in `users`. -/
def lookupUser (users : List UserRef) (i : String) : Option UserRef :=
  (users.filter (fun u => u.user_id = i)).head?

/-- A `user_actions` row joined to both reference tables
(`INNER JOIN organizations ... INNER JOIN users ...`: rows whose
identifiers are missing or unmatched are dropped). -/
structure JRow where
  row : CanonRow
  org : OrgRef
  user : UserRef
deriving DecidableEq, Repr

/-- The double inner join of the enhanced CS and executive views. -/
def joinRefs (orgs : List OrgRef) (users : List UserRef)
    (rows : List CanonRow) : List JRow :=
  rows.filterMap (fun r =>
    match r.org_id, r.user_id with
    | some oi, some ui =>
      match lookupOrg orgs oi, lookupUser users ui with
      | some o, some u => some ⟨r, o, u⟩
      | _, _ => none
    | _, _ => none)

/-- A `user_actions` row joined to `organizations` only
(the enhanced finance view joins no `users` table). -/
structure JOrgRow where
  row : CanonRow
  org : OrgRef
deriving DecidableEq, Repr

/-- The single inner join of the enhanced finance view. -/
def joinOrg (orgs : List OrgRef) (rows : List CanonRow) : List JOrgRow :=
  rows.filterMap (fun r =>
    match r.org_id with
    | some oi => (lookupOrg orgs oi).map (fun o => ⟨r, o⟩)
    | none => none)

/-! ## `enhanced_views.py`: the per-user rollup (`create_enhanced_cs_view`) -/

/-- The `WHERE` clause of `create_enhanced_cs_view` (lines 115-119). -/
def enhCsFilter (j : JRow) : Bool :=
  j.row.user_id.isSome && j.row.org_id.isSome && j.row.action.isSome &&
    j.row.credit_type ≠ "default"

/-- The `GROUP BY` key of `create_enhanced_cs_view` (line 121):
`o.org_name, o.industry, u.user_name, u.role, u.email, ua.user_id`. -/
structure EnhCsKey where
  org_name : String
  industry : String
  user_name : String
  user_role : String
  user_email : String
  user_id : Option String
deriving DecidableEq, Repr

/-- Group key of a joined row. -/
def enhCsKey (j : JRow) : EnhCsKey :=
  ⟨j.org.org_name, j.org.industry, j.user.user_name, j.user.role,
   j.user.email, j.row.user_id⟩

/-- The groups of the per-user rollup, keyed in first-occurrence order. -/
def enhCsGroups (orgs : List OrgRef) (users : List UserRef)
    (rows : List CanonRow) : List (EnhCsKey × List JRow) :=
  let f := (joinRefs orgs users rows).filter enhCsFilter
  ((f.map enhCsKey).dedup).map
    (fun k => (k, f.filter (fun j => enhCsKey j = k)))

/-- The engagement classification of lines 90-96. -/
def engagementLevel (n : Nat) : String :=
  if n ≥ 50 then "Power User"
  else if n ≥ 20 then "Active User"
  else if n ≥ 5 then "Regular User"
  else if n ≥ 1 then "Light User"
  else "Inactive"

/-- The `customer_status` `CASE` of lines 99-104, in source order: the
At-Risk test (`MAX(DATE(timestamp)) < CURRENT_DATE - INTERVAL '30 days'`)
comes **first**, then zero consumption, then negative balance, else
Healthy.  `today` is the day number of `CURRENT_DATE`. -/
def customerStatus (today : Int) (g : List JRow) : String :=
  if listMax (g.map (fun j => dayOf j.row.timestamp)) < today - 30 then
    "At Risk - Inactive"
  else if sumBy (fun j => deductCredit j.row) g = 0 then
    "Not Using Credits"
  else if sumBy (fun j => signedCredit j.row) g < 0 then
    "Low Balance - Upsell Opportunity"
  else "Healthy"

/-- One output row of the per-user rollup (`avg_daily_usage`, a rounded
ratio not used by any claim, is omitted). -/
structure EnhCsRow where
  organization : String
  industry : String
  user_name : String
  user_role : String
  user_email : String
  first_activity_date : Int
  last_activity_date : Int
  active_days : Nat
  net_credit_balance : Int
  total_credits_purchased : Int
  total_credits_consumed : Int
  total_actions : Nat
  purchase_actions : Nat
  usage_actions : Nat
  engagement_level : String
  customer_status : String
deriving DecidableEq, Repr

/-- Build one rollup row from a group. -/
def enhCsRow (today : Int) (k : EnhCsKey) (g : List JRow) : EnhCsRow :=
  let days := g.map (fun j => dayOf j.row.timestamp)
  ⟨k.org_name, k.industry, k.user_name, k.user_role, k.user_email,
   listMin days, listMax days, days.dedup.length,
   sumBy (fun j => signedCredit j.row) g,
   sumBy (fun j => addCredit j.row) g,
   sumBy (fun j => deductCredit j.row) g,
   g.length,
   (g.filter (fun j => j.row.action = some "add")).length,
   (g.filter (fun j => j.row.action = some "deduct")).length,
   engagementLevel g.length,
   customerStatus today g⟩

/-- `create_enhanced_cs_view` of `enhanced_views.py` (lines 50-124);
`ORDER BY` omitted. -/
def create_enhanced_cs_view (today : Int) (orgs : List OrgRef)
    (users : List UserRef) (rows : List CanonRow) : List EnhCsRow :=
  (enhCsGroups orgs users rows).map (fun kg => enhCsRow today kg.1 kg.2)

/-! ## `enhanced_views.py`: the per-organisation financial rollup -/

/-- The `GROUP BY` key of `create_enhanced_finance_view` (line 253). -/
structure EnhFinKey where
  org_name : String
  industry : String
  org_id : String
deriving DecidableEq, Repr

/-- Group key of an organisation-joined row. -/
def enhFinKey (j : JOrgRow) : EnhFinKey :=
  ⟨j.org.org_name, j.org.industry, j.org.org_id⟩

/-- The groups of the financial rollup: the view has **no** `WHERE`
clause — every joined row is aggregated, whatever its `credit_type`. -/
def enhFinGroups (orgs : List OrgRef) (rows : List CanonRow) :
    List (EnhFinKey × List JOrgRow) :=
  let f := joinOrg orgs rows
  ((f.map enhFinKey).dedup).map
    (fun k => (k, f.filter (fun j => enhFinKey j = k)))

/-- The `invoice_status` `CASE` of lines 227-243. -/
def invoiceStatus (net : Int) : String :=
  if net > 0 then "In Credit - No Action Required"
  else if net < 0 then "In Debit - Invoice Required"
  else "Balanced - No Action Required"

/-- One output row of the financial rollup (`avg_transaction_value`, a
rounded average not used by any claim, is omitted). -/
structure EnhFinRow where
  organization : String
  industry : String
  org_id : String
  net_credit_balance : Int
  total_credits_added : Int
  total_credits_used : Int
  active_users : Nat
  total_transactions : Nat
  invoice_status : String
deriving DecidableEq, Repr

/-- `create_enhanced_finance_view` of `enhanced_views.py` (lines 190-256);
`ORDER BY` omitted.  `COUNT(DISTINCT user_id)` ignores `NULL`s. -/
def create_enhanced_finance_view (orgs : List OrgRef)
    (rows : List CanonRow) : List EnhFinRow :=
  (enhFinGroups orgs rows).map (fun kg =>
    let net := sumBy (fun j => signedCredit j.row) kg.2
    ⟨kg.1.org_name, kg.1.industry, kg.1.org_id, net,
     sumBy (fun j => addCredit j.row) kg.2,
     sumBy (fun j => deductCredit j.row) kg.2,
     ((kg.2.filterMap (fun j => j.row.user_id)).dedup).length,
     kg.2.length, invoiceStatus net⟩)

/-! ## `enhanced_views.py`: the executive summary -/

/-- The `WHERE` clause of `create_executive_summary_view` (line 366):
only `credit_type != 'default'`. -/
def execFilter (j : JRow) : Bool := j.row.credit_type ≠ "default"

/-- The `GROUP BY` key of the executive summary (line 368). -/
structure ExecKey where
  org_name : String
  industry : String
  org_id : String
deriving DecidableEq, Repr

/-- Group key of a joined row. -/
def execKey (j : JRow) : ExecKey := ⟨j.org.org_name, j.org.industry, j.org.org_id⟩

/-- The groups of the executive summary. -/
def execGroups (orgs : List OrgRef) (users : List UserRef)
    (rows : List CanonRow) : List (ExecKey × List JRow) :=
  let f := (joinRefs orgs users rows).filter execFilter
  ((f.map execKey).dedup).map
    (fun k => (k, f.filter (fun j => execKey j = k)))

/-- One output row of the executive summary.  `primary_action_type` and
`most_active_user` (`LIMIT 1` subqueries whose tie-break is the store's
arbitrary row order, spec §9) and the rounded average are omitted;
`first_activity` is `MIN` over non-sentinel days only (`NULL` when every
day is the 1990 sentinel). -/
structure ExecRow where
  organization : String
  industry : String
  total_users : Nat
  active_days : Nat
  total_credit_volume : Int
  total_actions : Nat
  first_activity : Option Int
  last_activity : Int
deriving DecidableEq, Repr

/-- The day number of the sentinel date `1990-01-01`. -/
def sentinelDay : Int := dayOf SENTINEL

/-- `create_executive_summary_view` of `enhanced_views.py`
(lines 323-371); `ORDER BY` omitted. -/
def create_executive_summary_view (orgs : List OrgRef)
    (users : List UserRef) (rows : List CanonRow) : List ExecRow :=
  (execGroups orgs users rows).map (fun kg =>
    let days := kg.2.map (fun j => dayOf j.row.timestamp)
    let realDays := days.filter (fun d => sentinelDay < d)
    ⟨kg.1.org_name, kg.1.industry,
     ((kg.2.map (fun j => j.user.user_id)).dedup).length,
     days.dedup.length,
     sumBy (fun j => j.row.credits) kg.2,
     kg.2.length,
     (match realDays with
      | [] => none
      | _ => some (listMin realDays)),
     listMax days⟩)

/-! ## `check_views.py`: the refresher / validator -/

/-- Refresh classes of the derived views (spec §3/§4.3: ephemeral views are
rebuilt by the ViewBuilder every run and never refreshed; persistent views
are refreshed in place). -/
inductive RefreshKind where
  | ephemeral : RefreshKind
  | persistent : RefreshKind
deriving DecidableEq, Repr

/-- A derived view as declared: a name plus its refresh class. -/
structure DerivedView where
  name : String
  refreshKind : RefreshKind
deriving DecidableEq, Repr

/-- Modelled from the spec: the declared refresh classes of the five
pipeline views (the class itself appears nowhere in the source; §4.2/§4.3
classify the two original views as persistent and the enhanced/executive
views, rebuilt every run, as ephemeral).  The names are those used by
`run_pipeline.py`. -/
def pipelineViews : List DerivedView :=
  [⟨"customer_success_daily_activity", .persistent⟩,
   ⟨"finance_org_credit_balance", .persistent⟩,
   ⟨"enhanced_customer_success_view", .ephemeral⟩,
   ⟨"enhanced_finance_view", .ephemeral⟩,
   ⟨"executive_summary_view", .ephemeral⟩]

/-- Does `pat` occur at the head of `l`? -/
def listStarts : List Char → List Char → Bool
  | [], _ => true
  | _ :: _, [] => false
  | p :: ps, c :: cs => p = c && listStarts ps cs

/-- Does `pat` occur anywhere in `l`? -/
def containsSub (pat : List Char) : List Char → Bool
  | [] => listStarts pat []
  | c :: cs => listStarts pat (c :: cs) || containsSub pat cs

/-- The refresh-strategy test of `check_views.py`, line 281:
`"enhanced" in view_name or "executive" in view_name`. -/
def nameSkipsRefresh (n : String) : Bool :=
  containsSub "enhanced".data n.data || containsSub "executive".data n.data

/-- The store's behaviour during one `check_mat_view` call: whether each
statement it may issue succeeds, and the rows the view query returns. -/
structure Db where
  concurrentRefreshOk : Bool
  regularRefreshOk : Bool
  queryOk : Bool
  queryRows : List (List String)
deriving DecidableEq, Repr

/-- The store operations `check_mat_view` can issue. -/
inductive Op where
  | concurrentRefresh : Op
  | regularRefresh : Op
  | query : Op
deriving DecidableEq, Repr

/-- `check_mat_view` of `check_views.py` (lines 52-97), returning the
result (`none` models the `except`-path return of `None`) together with
the trace of store operations attempted.  Names containing `enhanced` or
`executive` are queried directly with no refresh; any other name gets a
concurrent refresh attempt and, if that raises, exactly one blocking
(`REFRESH MATERIALIZED VIEW`) retry; a failure of the retry, or of the
query itself, propagates to the outer handler which returns `None`. -/
def check_mat_view (view_name : String) (db : Db) :
    Option (List (List String)) × List Op :=
  if nameSkipsRefresh view_name then
    if db.queryOk then (some db.queryRows, [.query]) else (none, [.query])
  else
    if db.concurrentRefreshOk then
      if db.queryOk then (some db.queryRows, [.concurrentRefresh, .query])
      else (none, [.concurrentRefresh, .query])
    else
      if db.regularRefreshOk then
        if db.queryOk then
          (some db.queryRows, [.concurrentRefresh, .regularRefresh, .query])
        else (none, [.concurrentRefresh, .regularRefresh, .query])
      else (none, [.concurrentRefresh, .regularRefresh])

/-- The refresher applied to a declared view: only the name is consulted. -/
def checkView (v : DerivedView) (db : Db) :
    Option (List (List String)) × List Op :=
  check_mat_view v.name db

/-! ## `extract.py` and `load.py`: stage failure semantics -/

/-- The observable outcome of a stage call: whether an exception escaped to
the caller, and whether a traceback was printed inside the stage. -/
structure StageResult where
  raisedToCaller : Option String
  printedTrace : Option String
deriving DecidableEq, Repr

/-- The store's behaviour during one `load` call. -/
structure LoadStore where
  dropOk : Bool
  createOk : Bool
  appendOk : Bool
deriving DecidableEq, Repr

/-- The statement sequence inside `load`'s `try` block (`load.py`,
lines 437-464): drop table, create table, bulk append. -/
def loadBody (s : LoadStore) : Except String Unit :=
  if !s.dropOk then .error "DROP TABLE failed"
  else if !s.createOk then .error "CREATE TABLE failed"
  else if !s.appendOk then .error "to_sql append failed"
  else .ok ()

/-- `load` of `load.py` (lines 402-468): the `except` clause prints the
traceback and **falls through** — the function returns normally and no
exception reaches the caller, on any store behaviour. -/
def load (s : LoadStore) : StageResult :=
  match loadBody s with
  | .ok _ => ⟨none, none⟩
  | .error e => ⟨none, some e⟩

/-- `extract` of `extract.py` (lines 368-376): the `except` clause prints
the traceback and then re-raises, so a source failure propagates to the
caller; on success the raw frame is returned. -/
def extract (src : Except String (List RawRecord)) :
    StageResult × Option (List RawRecord) :=
  match src with
  | .ok df => (⟨none, none⟩, some df)
  | .error e => (⟨some e, some e⟩, none)

/-! ## Concrete scenario data -/

/-- The three-row input of the spec's §8 balance scenario. -/
def scenarioBalanceRows : List RawRecord :=
  [⟨some " A ", some "u1", none, some "Add", some 10, .str "2024-01-01 00:00:00"⟩,
   ⟨some "A", some "u1", none, some "deduct", some 3, .str "2024-01-02 00:00:00"⟩,
   ⟨some "B", some "u1", none, some "add", some 5, .str "2024-01-03 00:00:00"⟩]

/-- Two raw rows whose user identifiers differ only by trailing whitespace
(so they normalise to the same canonical user) but carry different
organisations. -/
def scenarioCollisionRows : List RawRecord :=
  [⟨some "a", some "u1 ", some "paid", some "add", some 1, .str "2024-01-01 00:00:00"⟩,
   ⟨some "b", some "u1", some "paid", some "add", some 1, .str "2024-01-02 00:00:00"⟩]

/-- Rows exercising the identifier policy: each combination of missing
`org_id` / `user_id`, plus one complete row with an unparseable timestamp. -/
def scenarioIdRows : List RawRecord :=
  [⟨none, some "u1", none, some "add", some 1, .str "x"⟩,
   ⟨some "o", none, none, some "add", some 1, .str "x"⟩,
   ⟨none, none, none, some "add", some 1, .str "x"⟩,
   ⟨some "o", some "u1", none, some "add", some 1, .str "x"⟩]

/-- A canonical row whose `credit_type` is the `"default"` placeholder. -/
def defaultRow : CanonRow :=
  ⟨some "a", some "u1", "default", some "add", 5, epochOf 2024 1 1 0 0 0⟩

/-- A canonical row with a real (non-placeholder) `credit_type`. -/
def paidRow : CanonRow :=
  ⟨some "o1", some "u1", "paid", some "add", 5, epochOf 2024 9 1 0 0 0⟩

/-- A reference organisation. -/
def demoOrg : OrgRef := ⟨"o1", "Org One", "tech"⟩

/-- A reference organisation for `defaultRow`'s organisation `a`. -/
def demoOrgA : OrgRef := ⟨"a", "Acme", "tech"⟩

/-- A reference user. -/
def demoUser : UserRef := ⟨"u1", "User One", "u1@org.one", "o1", "analyst"⟩

/-- A row of organisation `o1` (an `'add'`, no deduct) whose activity day
19950 lies more than 30 days before day 20000. -/
def staleRow : CanonRow := ⟨some "o1", some "u1", "paid", some "add", 5, 19950 * 86400⟩

/-- A row of organisation `o1` (an `'add'`, no deduct) whose activity day
19990 lies within 30 days of day 20000. -/
def freshRow : CanonRow := ⟨some "o1", some "u1", "paid", some "add", 5, 19990 * 86400⟩

/-- A store behaviour whose refreshes succeed but whose view query fails. -/
def dbQueryFails : Db := ⟨true, true, false, []⟩

/-- A store behaviour where everything succeeds. -/
def dbAllOk : Db := ⟨true, true, true, [["row"]]⟩

/-- Four identical canonical rows: one daily-activity group of size 4. -/
def fourRows : List CanonRow := [paidRow, paidRow, paidRow, paidRow]

/-- The daily-activity row produced by `fourRows`. -/
def cs4 : CsRow :=
  ⟨dayOf paidRow.timestamp, some "o1", some "u1", some "add", "paid", 20, 4,
   "Low Usage"⟩

/-- `freshRow` joined to its reference entities. -/
def jFresh : JRow := ⟨freshRow, demoOrg, demoUser⟩

/-! ## Helper lemmas -/

theorem mem_insertLe {le : α → α → Bool} {x a : α} {l : List α} :
    a ∈ insertLe le x l ↔ a = x ∨ a ∈ l := by
  induction l with
  | nil => simp [insertLe]
  | cons y ys ih =>
    simp only [insertLe]
    split
    · simp
    · simp only [List.mem_cons, ih]
      tauto

theorem mem_insSort {le : α → α → Bool} {a : α} {l : List α} :
    a ∈ insSort le l ↔ a ∈ l := by
  induction l with
  | nil => simp [insSort]
  | cons x xs ih => simp [insSort, mem_insertLe, ih]

theorem sumBy_eq_zero {f : α → Int} {g : List α} (h : ∀ x ∈ g, f x = 0) :
    sumBy f g = 0 := by
  induction g with
  | nil => rfl
  | cons x xs ih =>
    have hx := h x (List.mem_cons_self x xs)
    have hxs := ih (fun y hy => h y (List.mem_cons_of_mem x hy))
    simp only [sumBy, List.map_cons, List.foldr_cons] at *
    omega

theorem row_mem_of_mem_joinRefs {orgs : List OrgRef} {users : List UserRef}
    {rows : List CanonRow} {j : JRow} (h : j ∈ joinRefs orgs users rows) :
    j.row ∈ rows := by
  unfold joinRefs at h
  obtain ⟨r, hr, he⟩ := List.mem_filterMap.mp h
  cases ho : r.org_id with
  | none => rw [ho] at he; cases he
  | some oi =>
    cases hu : r.user_id with
    | none => rw [ho, hu] at he; cases he
    | some ui =>
      rw [ho, hu] at he
      dsimp only at he
      cases hlo : lookupOrg orgs oi with
      | none => rw [hlo] at he; cases he
      | some o =>
        cases hlu : lookupUser users ui with
        | none => rw [hlo, hlu] at he; cases he
        | some u =>
          rw [hlo, hlu] at he
          dsimp only at he
          cases he
          exact hr

theorem group_mem_csGroups {rows : List CanonRow}
    {kg : CsKey × List CanonRow} (h : kg ∈ csGroups rows) :
    kg.2 = (rows.filter csFilter).filter (fun r => csKey r = kg.1) ∧
      0 < kg.2.length := by
  unfold csGroups at h
  obtain ⟨k, hk, he⟩ := List.mem_map.mp h
  obtain ⟨r, hr, hkr⟩ := List.mem_map.mp (List.mem_dedup.mp hk)
  subst he
  refine ⟨rfl, ?_⟩
  have : r ∈ (rows.filter csFilter).filter (fun x => csKey x = k) :=
    List.mem_filter.mpr ⟨hr, by simp [hkr]⟩
  exact List.length_pos.mpr (List.ne_nil_of_mem this)

theorem mem_groups_filter {β : Type} [DecidableEq β] {key : α → β}
    {f : List α} {kg : β × List α}
    (h : kg ∈ (f.map key).dedup.map (fun k => (k, f.filter (fun x => key x = k)))) :
    ∀ x ∈ kg.2, x ∈ f := by
  obtain ⟨k, _, he⟩ := List.mem_map.mp h
  subst he
  intro x hx
  exact (List.mem_filter.mp hx).1

theorem deductCredit_eq_zero {r : CanonRow} (h : ¬ r.action = some "deduct") :
    deductCredit r = 0 := by
  unfold deductCredit
  cases ha : r.action with
  | none => rfl
  | some a =>
    dsimp only
    rw [if_neg]
    intro hq
    exact h (by rw [ha, hq])

/-! ## The claims -/

/-- **C1.** For every input batch, every row of the Transformer's output
has non-null `org_id` and non-null `user_id`; rows missing either
identifier never survive.  (The `dropna(..., how="all")` of line 122 only
removes rows missing *both*, but the single-organisation filter of
lines 129-130 removes the rest: a missing `user_id` is excluded from the
`groupby`, so its `first_orgs` entry is missing and the equality test
fails, and a missing `org_id` compares unequal to every `first_orgs`
value.) -/
theorem C1_mandatory_identifier_pair (raws : List RawRecord) (r : CanonRow)
    (h : r ∈ transform raws) : r.org_id.isSome ∧ r.user_id.isSome := by
  unfold transform at h
  rw [mem_insSort] at h
  obtain ⟨p, hp, he⟩ := List.mem_map.mp h
  have hk := (List.mem_filter.mp (by unfold singleOrgStage at hp; exact hp)).2
  unfold keepRow at hk
  cases hu : p.user_id with
  | none =>
    rw [hu] at hk
    cases ho : p.org_id <;> rw [ho] at hk <;> cases hk
  | some u =>
    cases ho : p.org_id with
    | none => rw [hu, ho] at hk; cases hk
    | some o =>
      subst he
      constructor <;> simp [finalize, hu, ho]

/-- **C1, witness.**  A concrete batch: of the four rows of
`scenarioIdRows`, only the one with both identifiers survives. -/
theorem C1_mandatory_identifier_pair_witness :
    (⟨some "o", some "u1", "default", some "add", 1, SENTINEL⟩ :
      CanonRow).org_id.isSome ∧
    (⟨some "o", some "u1", "default", some "add", 1, SENTINEL⟩ :
      CanonRow).user_id.isSome :=
  C1_mandatory_identifier_pair scenarioIdRows _ (by decide)

/-- **C2, failing input.**  The claim asserts that every `user_id` of the
output carries exactly one `org_id`.  On `scenarioCollisionRows` the two
raw user identifiers `"u1 "` and `"u1"` are distinct strings, so the
single-organisation filter (computed *before* string normalisation,
`transform.py` lines 129-130 vs 140-143) treats them as different users
and keeps both organisations; normalisation then merges them into the one
output user `"u1"`, which ends up with the two organisations `"a"` and
`"b"` — contradicting both the claim and the function's own documented
business rule ("Users can only belong to one organization"). -/
theorem C2_single_org_violated_eval :
    (transform scenarioCollisionRows).map (fun r => (r.org_id, r.user_id)) =
      [(some "a", some "u1"), (some "b", some "u1")] ∧
    ((transform scenarioCollisionRows).filterMap
        (fun r => if r.user_id = some "u1" then r.org_id else none)).dedup.length
      = 2 := by decide

/-- **C3, failing input.**  On the spec's §8 three-row scenario the claim
expects rows 1-2 kept (balance 7).  The code compares raw `org_id`
strings before normalisation, so `"A" ≠ " A "` and `"B" ≠ " A "`: rows 2
and 3 are both dropped, the single surviving row is normalised to
`org="a"` with credits 10, and the Org Balance for `"a"` is 10, not 7. -/
theorem C3_balance_scenario_eval :
    (transform scenarioBalanceRows).length = 1 ∧
    transform scenarioBalanceRows =
      [⟨some "a", some "u1", "default", some "add", 10, epochOf 2024 1 1 0 0 0⟩] ∧
    create_finance_view (transform scenarioBalanceRows) = [(some "a", 10)] := by
  decide

/-- **C6, failing input.**  A store failure during loading (here: the bulk
append raises) is caught by `load`'s `except` clause, which prints the
traceback and returns normally — nothing is propagated to the caller, in
contradiction with the claim (and with `load`'s own docstring, which
declares `Raises: Exception`).  The extraction stage, by contrast, does
re-raise. -/
theorem C6_load_swallows_store_failure :
    load ⟨true, true, false⟩ =
      ⟨none, some "to_sql append failed"⟩ ∧
    (extract (Except.error "source unreadable")).1.raisedToCaller =
      some "source unreadable" := by decide

/-- **C4.** Timestamp reconciliation is tiered with first-match-wins:
(1) a numeric (epoch-seconds) value inside `[1990-01-01, 2050-01-01]` is
accepted as such; (2) a numeric value outside the window is *not*
accepted numerically; (3) for string values not accepted numerically the
formats ISO, European, US are tried in that fixed order and the first
success wins; (4) a non-string value with no accepted numeric reading
parses to nothing; and (5) an unparsed value receives the sentinel
`1990-01-01 00:00:00` by the fill of `transform` (line 133).  Every
function involved is total: no raw value raises. -/
theorem C4_timestamp_tiering (v : RawVal) :
    (∀ n : Int, acceptedNum v = some n → datetime_parse v = some n)
  ∧ (∀ n : Int, toNumeric v = some n → ¬(START_DATE ≤ n ∧ n ≤ END_DATE) →
      acceptedNum v = none)
  ∧ (∀ s : String, v = RawVal.str s → acceptedNum v = none →
      ((∀ t : Int, parseISO s = some t → datetime_parse v = some t)
     ∧ (parseISO s = none →
         ∀ t : Int, parseEuro s = some t → datetime_parse v = some t)
     ∧ (parseISO s = none → parseEuro s = none →
         ∀ t : Int, parseUS s = some t → datetime_parse v = some t)
     ∧ (parseISO s = none → parseEuro s = none → parseUS s = none →
         datetime_parse v = none)))
  ∧ (acceptedNum v = none → v.isStr = false → datetime_parse v = none)
  ∧ (datetime_parse v = none → fillTimestamp (datetime_parse v) = SENTINEL) := by
  refine ⟨?_, ?_, ?_, ?_, ?_⟩
  · intro n h
    simp [datetime_parse, h]
  · intro n hn hw
    simp only [acceptedNum, hn]
    rw [if_neg]
    simpa using hw
  · intro s hv hnone
    subst hv
    refine ⟨?_, ?_, ?_, ?_⟩
    · intro t hiso
      simp [datetime_parse, hnone, tryFormats, hiso]
    · intro hisoN t heuro
      simp [datetime_parse, hnone, tryFormats, hisoN, heuro]
    · intro hisoN heuroN t hus
      simp [datetime_parse, hnone, tryFormats, hisoN, heuroN, hus]
    · intro hisoN heuroN husN
      simp [datetime_parse, hnone, tryFormats, hisoN, heuroN, husN]
  · intro hnone hstr
    cases v with
    | null => simp [datetime_parse, hnone]
    | num n => simp [datetime_parse, hnone]
    | str s => cases hstr
  · intro h
    simp [fillTimestamp, h]

/-- **C4, witness.**  Concrete instances of each tier: an in-window epoch
number is accepted numerically; `"19-12-2024"` fails ISO and is accepted
by the European format; `"not-a-date"` fails everything and is filled
with the sentinel. -/
theorem C4_timestamp_tiering_witness :
    datetime_parse (RawVal.num 1700000000) = some 1700000000
  ∧ datetime_parse (RawVal.str "19-12-2024") = some (epochOf 2024 12 19 0 0 0)
  ∧ fillTimestamp (datetime_parse (RawVal.str "not-a-date")) = SENTINEL := by
  refine ⟨?_, ?_, ?_⟩
  · exact (C4_timestamp_tiering (RawVal.num 1700000000)).1 1700000000 (by decide)
  · exact (((C4_timestamp_tiering (RawVal.str "19-12-2024")).2.2.1 "19-12-2024"
      rfl (by decide)).2.1 (by decide) (epochOf 2024 12 19 0 0 0) (by decide))
  · exact (C4_timestamp_tiering (RawVal.str "not-a-date")).2.2.2.2 (by decide)

/-- **C5, counterexample.**  A `credit_type = "default"` row is *not*
excluded from the Org Balance view or from the per-organisation financial
rollup: both aggregate it (neither view has a `credit_type` filter in its
SQL), so the claim "every business-intelligence view excludes `default`
rows" is false. -/
theorem C5_default_included_counterexample :
    create_finance_view [defaultRow] = [(some "a", 5)]
  ∧ (create_enhanced_finance_view [demoOrgA] [defaultRow]).map
      (fun r => (r.org_id, r.net_credit_balance)) = [("a", 5)] := by decide

/-- **C5, amended.**  The Daily Activity view, the per-user rollup and the
executive summary exclude `credit_type = "default"` rows from their
aggregations; the Org Balance view and the per-organisation financial
rollup apply no `credit_type` filter — every row (joined row) of their
input, whatever its `credit_type`, lands in its organisation's group. -/
theorem C5_default_filter_amended (rows : List CanonRow) :
    (∀ kg ∈ csGroups rows, ∀ r ∈ kg.2, r.credit_type ≠ "default")
  ∧ (∀ orgs : List OrgRef, ∀ users : List UserRef,
      ∀ kg ∈ enhCsGroups orgs users rows, ∀ j ∈ kg.2,
        j.row.credit_type ≠ "default")
  ∧ (∀ orgs : List OrgRef, ∀ users : List UserRef,
      ∀ kg ∈ execGroups orgs users rows, ∀ j ∈ kg.2,
        j.row.credit_type ≠ "default")
  ∧ (∀ r ∈ rows, ∃ g ∈ finGroups rows, r ∈ g.2)
  ∧ (∀ orgs : List OrgRef, ∀ j ∈ joinOrg orgs rows,
      ∃ g ∈ enhFinGroups orgs rows, j ∈ g.2) := by
  refine ⟨?_, ?_, ?_, ?_, ?_⟩
  · intro kg hkg r hr
    simp only [csGroups] at hkg
    have hf := mem_groups_filter hkg r hr
    have := (List.mem_filter.mp hf).2
    simp only [csFilter, Bool.and_eq_true, decide_eq_true_eq] at this
    exact this.2
  · intro orgs users kg hkg j hj
    simp only [enhCsGroups] at hkg
    have hf := mem_groups_filter hkg j hj
    have := (List.mem_filter.mp hf).2
    simp only [enhCsFilter, Bool.and_eq_true, decide_eq_true_eq] at this
    exact this.2
  · intro orgs users kg hkg j hj
    simp only [execGroups] at hkg
    have hf := mem_groups_filter hkg j hj
    have := (List.mem_filter.mp hf).2
    simpa only [execFilter, decide_eq_true_eq] using this
  · intro r hr
    refine ⟨(r.org_id, rows.filter (fun x => x.org_id = r.org_id)), ?_, ?_⟩
    · exact List.mem_map.mpr
        ⟨r.org_id, List.mem_dedup.mpr (List.mem_map.mpr ⟨r, hr, rfl⟩), rfl⟩
    · exact List.mem_filter.mpr ⟨hr, by simp⟩
  · intro orgs j hj
    refine ⟨(enhFinKey j,
      (joinOrg orgs rows).filter (fun x => enhFinKey x = enhFinKey j)), ?_, ?_⟩
    · exact List.mem_map.mpr
        ⟨enhFinKey j, List.mem_dedup.mpr (List.mem_map.mpr ⟨j, hj, rfl⟩), rfl⟩
    · exact List.mem_filter.mpr ⟨hj, by simp⟩

/-- **C5, amended, witness.**  The daily-activity group of `paidRow`
carries no `default` row; `defaultRow` lands in an Org Balance group. -/
theorem C5_default_filter_amended_witness :
    paidRow.credit_type ≠ "default"
  ∧ (∃ g ∈ finGroups [defaultRow], defaultRow ∈ g.2) := by
  refine ⟨?_, ?_⟩
  · exact (C5_default_filter_amended [paidRow]).1 (csKey paidRow, [paidRow])
      (by decide) paidRow (by decide)
  · exact (C5_default_filter_amended [defaultRow]).2.2.2.1 defaultRow
      (by decide)

/-- **C7.**  Usage-level boundaries in the Daily Activity view are exact:
every emitted group has at least one action (so a zero-action group never
appears), a count of exactly 10 is `High Usage`, exactly 9 and exactly 5
are `Medium Usage`, and exactly 4 is `Low Usage`. -/
theorem C7_usage_level_boundaries (rows : List CanonRow) (g : CsRow)
    (h : g ∈ create_cs_view rows) :
    1 ≤ g.action_count
  ∧ (g.action_count = 10 → g.usage_level = "High Usage")
  ∧ (g.action_count = 9 → g.usage_level = "Medium Usage")
  ∧ (g.action_count = 5 → g.usage_level = "Medium Usage")
  ∧ (g.action_count = 4 → g.usage_level = "Low Usage") := by
  unfold create_cs_view at h
  obtain ⟨kg, hkg, he⟩ := List.mem_map.mp h
  have hpos := (group_mem_csGroups hkg).2
  subst he
  refine ⟨hpos, ?_, ?_, ?_, ?_⟩ <;>
    (intro hc; dsimp only at hc ⊢; rw [hc]; decide)

/-- **C7, witness.**  On four identical rows the single group has count 4
and is classified `Low Usage`. -/
theorem C7_usage_level_boundaries_witness :
    1 ≤ cs4.action_count ∧ (cs4.action_count = 4 → cs4.usage_level = "Low Usage") := by
  have h := C7_usage_level_boundaries fourRows cs4 (by decide)
  exact ⟨h.1, h.2.2.2.2⟩

/-- **C8, counterexample.**  Organisation `o1` has zero `deduct` actions
and positive net balance (5), yet its only user is classified
`At Risk - Inactive` — not `Not Using Credits` — because the user's last
activity (day 19950) is more than 30 days before the current date
(day 20000) and the At-Risk branch of the `customer_status` `CASE`
precedes the zero-consumption branch. -/
theorem C8_at_risk_counterexample :
    (∀ r ∈ [staleRow], ¬ r.action = some "deduct")
  ∧ (create_enhanced_cs_view 20000 [demoOrg] [demoUser] [staleRow]).map
      (fun r => r.net_credit_balance) = [5]
  ∧ (create_enhanced_cs_view 20000 [demoOrg] [demoUser] [staleRow]).map
      (fun r => r.customer_status) = ["At Risk - Inactive"] := by decide

/-- **C8, amended.**  For an organisation with zero `deduct` actions,
every per-user rollup row of that organisation whose last activity is
within 30 days of the current date is classified `Not Using Credits`;
rows with older last activity are classified `At Risk - Inactive`; in no
case (regardless of balance sign) is any such row classified `Healthy`. -/
theorem C8_zero_deduct_amended (today : Int) (orgs : List OrgRef)
    (users : List UserRef) (rows : List CanonRow) (o : String)
    (hnod : ∀ r ∈ rows, r.org_id = some o → ¬ r.action = some "deduct")
    (k : EnhCsKey) (g : List JRow)
    (hg : (k, g) ∈ enhCsGroups orgs users rows)
    (horg : ∀ j ∈ g, j.row.org_id = some o) :
    (enhCsRow today k g).customer_status ≠ "Healthy"
  ∧ (¬ listMax (g.map (fun j => dayOf j.row.timestamp)) < today - 30 →
      (enhCsRow today k g).customer_status = "Not Using Credits")
  ∧ (listMax (g.map (fun j => dayOf j.row.timestamp)) < today - 30 →
      (enhCsRow today k g).customer_status = "At Risk - Inactive")
  ∧ enhCsRow today k g ∈ create_enhanced_cs_view today orgs users rows := by
  have hrows : ∀ j ∈ g, j.row ∈ rows := by
    intro j hj
    have hf : j ∈ (joinRefs orgs users rows).filter enhCsFilter := by
      simp only [enhCsGroups] at hg
      exact mem_groups_filter hg j hj
    exact row_mem_of_mem_joinRefs (List.mem_filter.mp hf).1
  have hdz : sumBy (fun j => deductCredit j.row) g = 0 :=
    sumBy_eq_zero (fun j hj =>
      deductCredit_eq_zero (hnod j.row (hrows j hj) (horg j hj)))
  have hstat : (enhCsRow today k g).customer_status = customerStatus today g := rfl
  refine ⟨?_, ?_, ?_, ?_⟩
  · rw [hstat]
    unfold customerStatus
    by_cases hst : listMax (g.map (fun j => dayOf j.row.timestamp)) < today - 30
    · rw [if_pos hst]; decide
    · rw [if_neg hst, if_pos hdz]; decide
  · intro hnot
    rw [hstat]
    unfold customerStatus
    rw [if_neg hnot, if_pos hdz]
  · intro hstale
    rw [hstat]
    unfold customerStatus
    rw [if_pos hstale]
  · exact List.mem_map.mpr ⟨(k, g), hg, rfl⟩

/-- **C8, amended, witness.**  A recent-activity user of a zero-deduct
organisation is classified `Not Using Credits`. -/
theorem C8_zero_deduct_amended_witness :
    (enhCsRow 20000 (enhCsKey jFresh) [jFresh]).customer_status =
      "Not Using Credits" :=
  (C8_zero_deduct_amended 20000 [demoOrg] [demoUser] [freshRow] "o1"
    (by decide) (enhCsKey jFresh) [jFresh] (by decide) (by decide)).2.1
    (by decide)

/-- **C9, counterexample.**  The claim says only a failure of the fallback
(blocking) refresh makes the refresh cycle fail.  But for the persistent
view `finance_org_credit_balance` with both refreshes succeeding and the
subsequent view query failing, `check_mat_view` returns the failure
signal `None` even though the fallback refresh never ran at all. -/
theorem C9_query_failure_counterexample :
    nameSkipsRefresh "finance_org_credit_balance" = false
  ∧ (check_mat_view "finance_org_credit_balance" dbQueryFails).1 = none
  ∧ (check_mat_view "finance_org_credit_balance" dbQueryFails).2 =
      [Op.concurrentRefresh, Op.query] := by decide

/-- **C9, amended.**  For the pipeline's views the name test coincides with
the declared refresh class.  A persistent view first attempts a concurrent
refresh and, if it fails, retries exactly once with a blocking refresh; an
ephemeral view performs no refresh and is queried directly.  The cycle
fails (returns `None`) iff both refresh attempts fail, or the refresh
phase succeeds (or is skipped) and the subsequent query of the view
fails. -/
theorem C9_refresh_strategy_amended (v : DerivedView) (db : Db)
    (hv : v ∈ pipelineViews) :
    (v.refreshKind = RefreshKind.persistent → nameSkipsRefresh v.name = false)
  ∧ (v.refreshKind = RefreshKind.ephemeral → nameSkipsRefresh v.name = true)
  ∧ (nameSkipsRefresh v.name = false →
      (checkView v db).2 =
        (if db.concurrentRefreshOk then [Op.concurrentRefresh, Op.query]
         else if db.regularRefreshOk then
           [Op.concurrentRefresh, Op.regularRefresh, Op.query]
         else [Op.concurrentRefresh, Op.regularRefresh]))
  ∧ (nameSkipsRefresh v.name = true → (checkView v db).2 = [Op.query])
  ∧ ((checkView v db).1 = none ↔
      (nameSkipsRefresh v.name = false ∧ db.concurrentRefreshOk = false ∧
        db.regularRefreshOk = false) ∨
      (¬(nameSkipsRefresh v.name = false ∧ db.concurrentRefreshOk = false ∧
          db.regularRefreshOk = false) ∧ db.queryOk = false)) := by
  refine ⟨?_, ?_, ?_, ?_, ?_⟩
  · intro hp
    fin_cases hv <;> revert hp <;> decide
  · intro hp
    fin_cases hv <;> revert hp <;> decide
  · intro hskip
    rcases db with ⟨co, ro, qo, qrows⟩
    cases co <;> cases ro <;> cases qo <;>
      simp [checkView, check_mat_view, hskip]
  · intro hskip
    rcases db with ⟨co, ro, qo, qrows⟩
    cases qo <;> simp [checkView, check_mat_view, hskip]
  · cases hs : nameSkipsRefresh v.name <;>
      (rcases db with ⟨co, ro, qo, qrows⟩;
       cases co <;> cases ro <;> cases qo <;>
         simp [checkView, check_mat_view, hs])

/-- **C9, amended, witness.**  The persistent finance view with a healthy
store attempts the concurrent refresh and then queries. -/
theorem C9_refresh_strategy_amended_witness :
    (checkView ⟨"finance_org_credit_balance", RefreshKind.persistent⟩
        dbAllOk).2 = [Op.concurrentRefresh, Op.query] :=
  (C9_refresh_strategy_amended
    ⟨"finance_org_credit_balance", RefreshKind.persistent⟩ dbAllOk
    (by decide)).2.2.1 (by decide)

/-- **C10.**  `check_mat_view` dispatches purely on the view's *name*: a
name containing `enhanced` or `executive` is queried directly with no
refresh operation, any other name always gets a refresh attempt, and two
declared views with the same name behave identically whatever their
declared refresh classes — the classification plays no role. -/
theorem C10_name_substring_dispatch (v w : DerivedView) (db : Db) :
    (nameSkipsRefresh v.name = true → (checkView v db).2 = [Op.query])
  ∧ (nameSkipsRefresh v.name = false →
      Op.concurrentRefresh ∈ (checkView v db).2)
  ∧ (v.name = w.name → checkView v db = checkView w db) := by
  refine ⟨?_, ?_, ?_⟩
  · intro h
    rcases db with ⟨co, ro, qo, qrows⟩
    cases qo <;> simp [checkView, check_mat_view, h]
  · intro h
    rcases db with ⟨co, ro, qo, qrows⟩
    cases co <;> cases ro <;> cases qo <;>
      simp [checkView, check_mat_view, h]
  · intro h
    unfold checkView
    rw [h]

/-- **C10, witness.**  A view *declared persistent* but named
`enhanced_customer_success_view` skips refresh entirely, and behaves
exactly like its ephemeral twin of the same name. -/
theorem C10_name_substring_dispatch_witness :
    (checkView ⟨"enhanced_customer_success_view", RefreshKind.persistent⟩
        dbAllOk).2 = [Op.query]
  ∧ checkView ⟨"enhanced_customer_success_view", RefreshKind.persistent⟩
        dbAllOk =
      checkView ⟨"enhanced_customer_success_view", RefreshKind.ephemeral⟩
        dbAllOk := by
  refine ⟨?_, ?_⟩
  · exact (C10_name_substring_dispatch
      ⟨"enhanced_customer_success_view", RefreshKind.persistent⟩
      ⟨"enhanced_customer_success_view", RefreshKind.ephemeral⟩ dbAllOk).1
      (by decide)
  · exact (C10_name_substring_dispatch
      ⟨"enhanced_customer_success_view", RefreshKind.persistent⟩
      ⟨"enhanced_customer_success_view", RefreshKind.ephemeral⟩ dbAllOk).2.2
      rfl

end DataPipeline
